import Mathlib

/-!
Verification development for a HipChat XMPP bot core (`src/index.js`).

The embedding models the bot's in-memory state (resolver registry, contact
directory, own profile), the stanza data as an XML tree, and each stanza
handler (`maybeVCard`, `maybeProfile`, `maybeBuddyList`, `maybeMessage`,
`maybePresence`, `maybeInvite`) together with the dispatch chain wired up in
`listen`, the outgoing-message operations (`send`, `sendChat`, `fullProfile`)
and the session reply continuation.  JavaScript objects used as string-keyed
maps are modelled as insertion-ordered association lists, promise resolvers
as explicit pending/resolved states, and thrown exceptions as an explicit
crash outcome of a handler.
-/

namespace Hipchat

/-- Insertion-ordered string-keyed map, modelling a plain JS object used as a
dictionary: assigning to an existing key keeps its position, a new key is
appended. -/
def ObjMap (α : Type) : Type := List (String × α)

def ObjMap.get {α : Type} : ObjMap α → String → Option α
  | [], _ => none
  | (k1, v) :: rest, k => if k1 = k then some v else ObjMap.get rest k

def ObjMap.set {α : Type} : ObjMap α → String → α → ObjMap α
  | [], k, v => [(k, v)]
  | (k1, v1) :: rest, k, v =>
    if k1 = k then (k, v) :: rest else (k1, v1) :: ObjMap.set rest k v

/-- JS `Object.values` / `_.values`: the values in insertion order. -/
def ObjMap.values {α : Type} (m : ObjMap α) : List α := m.map Prod.snd

/-- Characters before the first slash, and (when a slash occurs) the
characters after it. -/
def breakSlash : List Char → List Char × Option (List Char)
  | [] => ([], none)
  | c :: rest =>
    if c = '/' then ([], some rest)
    else
      let p := breakSlash rest
      (c :: p.1, p.2)

/-- JS `s.indexOf(p) == 0`, i.e. whether `p` is a prefix of `s`. -/
def strStartsWith (s p : String) : Bool := List.isPrefixOf p.data s.data

/-- JS `array.join('')` on a list of strings. -/
def strJoin : List String → String
  | [] => ""
  | s :: rest => s ++ strJoin rest

/-- Whether a string contains no slash. -/
def noSlash (s : String) : Bool := s.data.all (fun c => ¬ (c = '/'))

/-- A chat address as parsed by the `JID` class: the bare `local@domain`
part, plus an optional resource (everything after the first slash). -/
structure JID where
  bareStr : String
  resource : Option String
  deriving DecidableEq, Repr

/-- JS `new JID(string)`: split at the first slash. -/
def parseJID (s : String) : JID :=
  let p := breakSlash s.data
  ⟨⟨p.1⟩, p.2.map (fun r => ⟨r⟩)⟩

/-- JS `jid.toString()`. -/
def JID.toStr : JID → String
  | ⟨b, none⟩ => b
  | ⟨b, some r⟩ => ⟨b.data ++ '/' :: r.data⟩

/-- JS `jid.bare()`: drop the resource. -/
def JID.bare (j : JID) : JID := ⟨j.bareStr, none⟩

/-- JS `new JID(x)` where `x` is a possibly absent attribute value: the JID
class does not parse an absent argument, and the resulting empty JID
stringifies to the null-ish key. -/
def newJID : Option String → JID
  | some s => parseJID s
  | none => ⟨"null", none⟩

/-- XML tree node as handled by the stanza library: an element with a name,
attributes and mixed children, or a text node. -/
inductive XNode where
  | elem (name : String) (attrs : List (String × String)) (children : List XNode)
  | text (s : String)

def XNode.children : XNode → List XNode
  | .elem _ _ cs => cs
  | .text _ => []

/-- Whether the node is an element with the given name
(`Object.is(stanza.name, n)`). -/
def XNode.isElemNamed (n : String) : XNode → Bool
  | .elem m _ _ => m = n
  | .text _ => false

/-- JS `node.attrs.k` as an optional value. -/
def XNode.attr : XNode → String → Option String
  | .elem _ attrs _, k => ObjMap.get attrs k
  | .text _, _ => none

/-- JS `getChildren(name)`: the direct child elements with that name. -/
def XNode.getChildren (x : XNode) (n : String) : List XNode :=
  x.children.filter (fun c => c.isElemNamed n)

/-- JS `getChild(name)`: the first direct child element with that name. -/
def XNode.getChild (x : XNode) (n : String) : Option XNode :=
  (x.getChildren n).head?

/-- JS `getText()`: the concatenated direct text children. -/
def XNode.getText (x : XNode) : String :=
  strJoin (x.children.filterMap (fun c =>
    match c with
    | .text s => some s
    | .elem _ _ _ => none))

/-- JS `getChildText(name)`: `null` when the child is missing. -/
def XNode.getChildText (x : XNode) (n : String) : Option String :=
  (x.getChild n).map XNode.getText

/-- The result of JS `Number(x)` on a possibly absent attribute: either a
numeral parsed from the string or the not-a-number value. -/
inductive JNum where
  | nan
  | ofStr (s : String)

/-- A directory record (`buddy`): every field is optional because records
are built up incrementally, and a field set from a missing piece of input
becomes the absent value again.  `name` and `mention_name` hold whatever JS
value was assigned: a text node's string or a nested element. -/
structure Buddy where
  jid : Option JID := none
  name : Option XNode := none
  mention_name : Option XNode := none
  timezone : Option String := none
  utc_offset : Option JNum := none
  presence : Option String := none

/-- The bot's own profile: its JID and the vCard fields keyed by element
name (`FN`, ...). -/
structure Profile where
  jid : Option JID := none
  fields : ObjMap String := []

/-- The state of one registered promise resolver.  The token identifies
which created future the stored resolver function belongs to; resolving an
already resolved future is a no-op. -/
inductive PromiseState where
  | pending (tok : Nat)
  | resolved (tok : Nat) (payload : Option Buddy)

/-- Calling the stored resolver function: the first call settles the
future with its payload, later calls have no effect. -/
def PromiseState.resolve : PromiseState → Option Buddy → PromiseState
  | .pending t, p => .resolved t p
  | .resolved t p, _ => .resolved t p

def PromiseState.isPending : PromiseState → Bool
  | .pending _ => true
  | .resolved _ _ => false

/-- The mutable state held on the bot object: the resolver registry
(`this.resolvers`), the contact directory (`this.directory`) and the bot's
own profile (`this.profile`). -/
structure BotState where
  resolvers : ObjMap PromiseState
  directory : ObjMap Buddy
  profile : Profile

inductive StoreKind where
  | session
  | user
  deriving DecidableEq, Repr

/-- Observable side effects of the handlers and pipelines: emitted `error`,
`warn`, `reply` and `send` events, outgoing stanzas handed to the client,
the start of a session load/dispatch for a resolved user, and completed
store writes. -/
inductive Event where
  | error
  | warn (msg : String)
  | reply
  | sent (st : XNode)
  | sessionStarted (user : JID)
  | storeWrite (k : StoreKind)
  | sendEmitted

def Event.isErr : Event → Bool
  | .error => true
  | _ => false

def Event.isWarn : Event → Bool
  | .warn _ => true
  | _ => false

def Event.isSessionStart : Event → Bool
  | .sessionStarted _ => true
  | _ => false

def Event.isSessionStartedJ (j : JID) : Event → Bool
  | .sessionStarted u => u = j
  | _ => false

def Event.isSentTo (e : Event) (t : String) : Bool :=
  match e with
  | .sent st => st.attr "to" = some t
  | _ => false

/-- Outcome of one `maybe*` handler: it returned a falsy value (the chain
continues), a truthy value (the chain stops), or threw (the chain aborts). -/
inductive HandlerOut where
  | pass (s : BotState) (evs : List Event)
  | stop (s : BotState) (evs : List Event)
  | crash (s : BotState) (evs : List Event)

def HandlerOut.outState : HandlerOut → BotState
  | .pass s _ => s
  | .stop s _ => s
  | .crash s _ => s

def HandlerOut.isPass : HandlerOut → Bool
  | .pass _ _ => true
  | _ => false

/-- Match condition of `maybeVCard`: an info-query unit carrying a `vCard`
child. -/
def isVCardStanza (st : XNode) : Bool :=
  st.isElemNamed "iq" && (st.getChild "vCard").isSome

/-- Match condition of `maybeProfile`: an info-query unit whose id begins
with the reserved `profile:` marker. -/
def isProfileStanza (st : XNode) : Bool :=
  st.isElemNamed "iq" && strStartsWith ((st.attr "id").getD "") "profile:"

/-- Match condition of `maybeBuddyList`: any unit with a `query` child
(the handler checks nothing else, in particular not the unit's name). -/
def isQueryStanza (st : XNode) : Bool :=
  (st.getChild "query").isSome

/-- Match condition of `maybeMessage`: a message unit with a non-empty body
and a `chat` or `groupchat` subtype. -/
def isMsgBasic (st : XNode) : Bool :=
  st.isElemNamed "message" && ((st.getChildText "body").getD "" ≠ "")
    && (st.attr "type" = some "chat" || st.attr "type" = some "groupchat")

/-- JS `this.resolvers[stanza.attrs.id]`. -/
def resolverFor (s : BotState) (st : XNode) : Option PromiseState :=
  (st.attr "id").bind s.resolvers.get

/-- The self-profile handler body: record the bot's own JID from the `to`
attribute and copy every vCard child field into the profile, field by field;
a text child among the vCard children makes the field access throw. -/
def vcardFold : List XNode → ObjMap String → ObjMap String × Bool
  | [], f => (f, false)
  | .text _ :: _, f => (f, true)
  | .elem n a c :: rest, f => vcardFold rest (f.set n (XNode.elem n a c).getText)

def vcardCore (s : BotState) (st : XNode) : HandlerOut :=
  match st.getChild "vCard" with
  | none => .pass s []
  | some v =>
    let prof : Profile := { s.profile with jid := some (newJID (st.attr "to")) }
    let r := vcardFold v.children prof.fields
    if r.2 then .crash { s with profile := { prof with fields := r.1 } } []
    else .stop { s with profile := { prof with fields := r.1 } } []

def maybeVCard (s : BotState) (st : XNode) : HandlerOut :=
  if isVCardStanza st then vcardCore s st else .pass s []

/-- The field extraction of `maybeProfile`'s `try` block, performed step by
step on the merged record: each successful step assigns its field (possibly
assigning the absent value when the element exists but has no child), and
the first missing element aborts the remaining steps with an error. -/
def profileParse (q0 : Option XNode) (b : Buddy) : Buddy × Bool :=
  match q0 with
  | none => (b, true)
  | some q =>
    match (q.getChildren "name").head? with
    | none => (b, true)
    | some nEl =>
      let b := { b with name := nEl.children.head? }
      match (q.getChildren "mention_name").head? with
      | none => (b, true)
      | some mEl =>
        let b := { b with mention_name := mEl.children.head? }
        match (q.getChildren "timezone").head? with
        | none => (b, true)
        | some tEl =>
          ({ b with
              timezone := some tEl.getText,
              utc_offset := some (match tEl.attr "utc_offset" with
                | some v => JNum.ofStr v
                | none => JNum.nan) }, false)

/-- The directory key a profile reply is merged under: the sender's bare
address. -/
def profileKey (st : XNode) : String := (newJID (st.attr "from")).bare.toStr

/-- The merged record a profile reply produces (with the error flag of the
field extraction): the existing record with the sender's JID assigned, then
the extracted fields up to the first failure. -/
def profileRecord (s : BotState) (st : XNode) : Buddy × Bool :=
  profileParse ((st.getChildren "query").head?)
    { (s.directory.get (profileKey st)).getD {} with jid := some (newJID (st.attr "from")) }

/-- The bot state after a profile reply with id `i`: the merged record is
written to the directory, and a registered resolver under `i` is called
with it. -/
def profileStopState (s : BotState) (st : XNode) (i : String) : BotState :=
  { s with
      directory := s.directory.set (profileKey st) (profileRecord s st).1,
      resolvers := match s.resolvers.get i with
        | some p => s.resolvers.set i (p.resolve (some (profileRecord s st).1))
        | none => s.resolvers }

def profileCore (s : BotState) (st : XNode) : HandlerOut :=
  match st.attr "id" with
  | none => .pass s []
  | some i =>
    .stop (profileStopState s st i) (if (profileRecord s st).2 then [.error] else [])

def maybeProfile (s : BotState) (st : XNode) : HandlerOut :=
  if isProfileStanza st then profileCore s st else .pass s []

/-- The directory key a roster item is stored under. -/
def itemKey (el : XNode) : String := (newJID (el.attr "jid")).bare.toStr

/-- The record written for one roster item: existing record (or a fresh one)
with `jid`, `name` and `mention_name` assigned from the item's attributes,
absent attributes clearing the fields. -/
def itemRecord (old : Option Buddy) (el : XNode) : Buddy :=
  { old.getD {} with
      jid := some (newJID (el.attr "jid")),
      name := (el.attr "name").map XNode.text,
      mention_name := (el.attr "mention_name").map XNode.text }

def itemMerge (dir : ObjMap Buddy) (el : XNode) : ObjMap Buddy :=
  dir.set (itemKey el) (itemRecord (dir.get (itemKey el)) el)

def maybeBuddyList (s : BotState) (st : XNode) : HandlerOut :=
  if isQueryStanza st then
    match st.getChild "query" with
    | some q =>
      .stop { s with directory := (q.getChildren "item").foldl itemMerge s.directory } []
    | none => .pass s []
  else .pass s []

/-- JS `Object.is(u.name, messageFrom.getResource())`: only a string-valued
name can equal the resource string, and an absent name never equals the
null resource of a bare address. -/
def nameIs (n : Option XNode) (r : Option String) : Bool :=
  match n, r with
  | some (.text s), some t => s = t
  | _, _ => false

/-- The group-chat identity lookup: the first directory value, in insertion
order, whose name equals the sender's resource. -/
def findGroupUser (s : BotState) (rsrc : Option String) : Option Buddy :=
  s.directory.values.find? (fun u => nameIs u.name rsrc)

/-- The tail of `maybeMessage` after the message user is resolved: the
self-echo check against the bot's profile JID (throwing when the profile or
the resolved user has no JID yet), the `reply` event for the bot's own
messages, and otherwise the start of the session load/dispatch. -/
def msgContinue (s : BotState) (mu : Option JID) : HandlerOut :=
  match s.profile.jid with
  | none => .crash s []
  | some pj =>
    match mu with
    | none => .crash s []
    | some u =>
      if pj.bare.toStr = u.bare.toStr then .stop s [.reply]
      else .pass s [.sessionStarted u]

def messageCore (s : BotState) (st : XNode) : HandlerOut :=
  match resolverFor s st with
  | some p =>
    match st.attr "id" with
    | some i => .stop { s with resolvers := s.resolvers.set i (p.resolve none) } []
    | none => .stop s []
  | none =>
    let messageFrom := newJID (st.attr "from")
    if st.attr "type" = some "chat" then msgContinue s (some messageFrom)
    else
      match findGroupUser s messageFrom.resource with
      | none => .pass s [.warn ("No user " ++ messageFrom.resource.getD "null")]
      | some u => msgContinue s u.jid

def maybeMessage (s : BotState) (st : XNode) : HandlerOut :=
  if isMsgBasic st then messageCore s st else .pass s []

/-- The presence value written for a presence unit: the joined `show`
texts, else the `type` attribute, else `online`. -/
def presenceVal (st : XNode) : String :=
  let shw := strJoin ((st.getChildren "show").map XNode.getText)
  if shw ≠ "" then shw
  else match st.attr "type" with
    | some t => if t ≠ "" then t else "online"
    | none => "online"

/-- The directory after a presence unit: the record under the sender's bare
address gets its presence field set. -/
def presenceMergedState (s : BotState) (st : XNode) : BotState :=
  if st.isElemNamed "presence" then
    let key := (newJID (st.attr "from")).bare.toStr
    let buddy := (s.directory.get key).getD {}
    { s with directory := s.directory.set key { buddy with presence := some (presenceVal st) } }
  else s

/-- The presence handler never returns a value, so it always reports the
unit as not handled. -/
def maybePresence (s : BotState) (st : XNode) : HandlerOut :=
  .pass (presenceMergedState s st) []

/-- The room-join presence sent in response to one invite. -/
def joinStanza (room : JID) (fn : Option String) : XNode :=
  .elem "presence" [("to", room.toStr ++ "/" ++ fn.getD "undefined")]
    [.elem "x" [("xmlns", "http://jabber.org/protocol/muc")]
      [.elem "history" [("xmlns", "http://jabber.org/protocol/muc"), ("maxstanzas", "2")] []]]

/-- The invite handler sends one join presence per `x`/`invite` child of a
message unit; it mutates no state and always returns a falsy flag. -/
def inviteEvents (s : BotState) (st : XNode) : List Event :=
  if st.isElemNamed "message" then
    (st.getChildren "x").flatMap (fun x =>
      (x.getChildren "invite").map (fun _ =>
        Event.sent (joinStanza (newJID (st.attr "from")) (s.profile.fields.get "FN"))))
  else []

def maybeInvite (s : BotState) (st : XNode) : HandlerOut :=
  .pass s (inviteEvents s st)

/-- Result of running the classifier chain on one inbound unit. -/
structure ClassifyOut where
  state : BotState
  events : List Event
  tried : List String
  handled : Bool
  crashed : Bool

/-- The short-circuiting `a(stanza) || b(stanza) || ...` chain: handlers are
evaluated in order until one returns a truthy value or throws; `tried` lists
the handlers that were evaluated. -/
def runChain : List (String × (BotState → XNode → HandlerOut)) → BotState → XNode → ClassifyOut
  | [], s, _ => ⟨s, [], [], false, false⟩
  | (n, h) :: rest, s, st =>
    match h s st with
    | .stop s1 e1 => ⟨s1, e1, [n], true, false⟩
    | .crash s1 e1 => ⟨s1, e1, [n], false, true⟩
    | .pass s1 e1 =>
      let o := runChain rest s1 st
      ⟨o.state, e1 ++ o.events, n :: o.tried, o.handled, o.crashed⟩

/-- The handler chain registered in `listen`, in source order. -/
def handlers : List (String × (BotState → XNode → HandlerOut)) :=
  [("maybeVCard", maybeVCard), ("maybeProfile", maybeProfile),
   ("maybeBuddyList", maybeBuddyList), ("maybeMessage", maybeMessage),
   ("maybePresence", maybePresence), ("maybeInvite", maybeInvite)]

def CANON : List String :=
  ["maybeVCard", "maybeProfile", "maybeBuddyList", "maybeMessage",
   "maybePresence", "maybeInvite"]

/-- Processing of one inbound stanza by the `listen` event handler. -/
def classify (s : BotState) (st : XNode) : ClassifyOut :=
  runChain handlers s st

/-- Processing a whole arrival-ordered trace of inbound stanzas. -/
def processTrace (s : BotState) (trace : List XNode) : BotState :=
  trace.foldl (fun s1 st => (classify s1 st).state) s

/-- Whether an inbound unit reaches the message handler's receipt branch for
the given identifier: it is not consumed by an earlier handler, it is a
basic conversational message, and it carries that identifier. -/
def echoesId (st : XNode) (id1 : String) : Bool :=
  !isVCardStanza st && !isProfileStanza st && !isQueryStanza st
    && isMsgBasic st && (st.attr "id" = some id1)

/-- The outgoing chat message built by `send`: note the target written into
the stanza is the bare address. -/
def chatStanza (id1 to1 message : String) : XNode :=
  .elem "message" [("id", id1), ("to", to1), ("type", "chat")]
    [.elem "body" [] [.text message],
     .elem "x" [("xmlns", "http://hipchat.com")] [.elem "echo" [] []],
     .elem "time" [("xmlns", "urn:  xmpp:time")] []]

/-- The method `send(to, message)`: re-parse the target's string form, strip it to the
bare address, transmit the message unit under a fresh id, and register a
resolver for that id.  `id1` is the fresh uuid, `tok` the identity of the
future handed back to the caller. -/
def send (s : BotState) (to1 : JID) (message : String) (id1 : String) (tok : Nat) :
    BotState × List Event :=
  let toStr := (parseJID to1.toStr).bare.toStr
  ({ s with resolvers := s.resolvers.set id1 (.pending tok) },
   [.sent (chatStanza id1 toStr message)])

/-- The outgoing group message built by `sendChat`: addressed to the room's
bare address with the bot's own display name as resource. -/
def groupStanza (id1 to1 message : String) : XNode :=
  .elem "message" [("id", id1), ("to", to1), ("type", "groupchat")]
    [.elem "body" [] [.text message],
     .elem "x" [("xmlns", "http://hipchat.com")] [.elem "echo" [] []],
     .elem "time" [("xmlns", "urn:  xmpp:time")] []]

def sendChat (s : BotState) (room : JID) (message : String) (id1 : String) (tok : Nat) :
    BotState × List Event :=
  let toStr := room.bare.toStr ++ "/" ++ (s.profile.fields.get "FN").getD "undefined"
  ({ s with resolvers := s.resolvers.set id1 (.pending tok) },
   [.sent (groupStanza id1 toStr message)])

/-- The method `fullProfile(jid)`: register a resolver under a fresh `profile:`-prefixed
id, then transmit the profile query. -/
def fullProfile (s : BotState) (jid : JID) (u : String) (tok : Nat) :
    BotState × List Event :=
  let id1 := "profile:" ++ u
  ({ s with resolvers := s.resolvers.set id1 (.pending tok) },
   [.sent (.elem "iq" [("id", id1), ("to", jid.bare.toStr), ("type", "get")]
     [.elem "query" [("xmlns", "http://hipchat.com/protocol/profile")] [],
      .elem "time" [("xmlns", "urn:xmpp:time")] []])])

/-- The session `send` listener: once both store writes complete, forward
the reply through the send pipeline appropriate for the conversation
subtype, then emit the bot-level `send` event. -/
def onSessionSend (s : BotState) (stanzaType : String) (messageFrom : JID)
    (text : String) (id1 : String) (tok : Nat) : BotState × List Event :=
  let evs0 : List Event := [.storeWrite .session, .storeWrite .user]
  if stanzaType = "chat" then
    let r := send s messageFrom text id1 tok
    (r.1, evs0 ++ r.2 ++ [.sendEmitted])
  else if stanzaType = "groupchat" then
    let r := sendChat s messageFrom text id1 tok
    (r.1, evs0 ++ r.2 ++ [.sendEmitted])
  else (s, evs0 ++ [.sendEmitted])

theorem ObjMap.get_set_self {α : Type} (m : ObjMap α) (k : String) (v : α) :
    (m.set k v).get k = some v := by
  induction m with
  | nil => simp [ObjMap.set, ObjMap.get]
  | cons hd tl ih =>
    by_cases h : hd.1 = k
    · simp [ObjMap.set, ObjMap.get, h]
    · simpa [ObjMap.set, ObjMap.get, h] using ih

theorem ObjMap.get_set_ne {α : Type} (m : ObjMap α) (k k1 : String) (v : α)
    (h : k1 ≠ k) : (m.set k v).get k1 = m.get k1 := by
  induction m with
  | nil => simp [ObjMap.set, ObjMap.get, Ne.symm h]
  | cons hd tl ih =>
    by_cases h2 : hd.1 = k
    · subst h2
      simp [ObjMap.set, ObjMap.get, Ne.symm h]
    · by_cases h3 : hd.1 = k1 <;> simp [ObjMap.set, ObjMap.get, h2, h3, h, ih]

theorem ObjMap.isSome_get_set {α : Type} (m : ObjMap α) (k k1 : String) (v : α)
    (h : (m.get k1).isSome = true) : ((m.set k v).get k1).isSome = true := by
  by_cases hk : k1 = k
  · subst hk
    simp [ObjMap.get_set_self]
  · rwa [ObjMap.get_set_ne m k k1 v hk]

theorem isElemNamed_ne (st : XNode) (n m : String) (h : st.isElemNamed n = true)
    (hnm : m ≠ n) : st.isElemNamed m = false := by
  cases st with
  | text s => rfl
  | elem nm a c =>
    simp only [XNode.isElemNamed, decide_eq_true_eq] at h
    simp [XNode.isElemNamed, h, Ne.symm hnm]

theorem maybeVCard_pass (s : BotState) (st : XNode) (h : isVCardStanza st = false) :
    maybeVCard s st = .pass s [] := by
  simp [maybeVCard, h]

theorem maybeProfile_pass (s : BotState) (st : XNode) (h : isProfileStanza st = false) :
    maybeProfile s st = .pass s [] := by
  simp [maybeProfile, h]

theorem maybeBuddyList_pass (s : BotState) (st : XNode) (h : isQueryStanza st = false) :
    maybeBuddyList s st = .pass s [] := by
  simp [maybeBuddyList, h]

theorem maybeMessage_pass (s : BotState) (st : XNode) (h : isMsgBasic st = false) :
    maybeMessage s st = .pass s [] := by
  simp [maybeMessage, h]

theorem isProfileStanza_id (st : XNode) (h : isProfileStanza st = true) :
    ∃ i, st.attr "id" = some i ∧ strStartsWith i "profile:" = true := by
  simp only [isProfileStanza, Bool.and_eq_true] at h
  cases hid : st.attr "id" with
  | none =>
    rw [hid] at h
    exact absurd h.2 (by decide)
  | some i =>
    rw [hid] at h
    exact ⟨i, rfl, h.2⟩

theorem msgContinue_state (s : BotState) (mu : Option JID) :
    (msgContinue s mu).outState = s := by
  unfold msgContinue
  cases s.profile.jid with
  | none => rfl
  | some pj =>
    cases mu with
    | none => rfl
    | some u =>
      by_cases h : pj.bare.toStr = u.bare.toStr <;> simp [h, HandlerOut.outState]

theorem messageCore_nonecho_state (s : BotState) (st : XNode)
    (h : resolverFor s st = none) : (messageCore s st).outState = s := by
  unfold messageCore
  rw [h]
  by_cases ht : st.attr "type" = some "chat"
  · simp only [ht, if_pos]
    exact msgContinue_state s _
  · simp only [ht, if_neg, ite_false]
    cases hf : findGroupUser s (newJID (st.attr "from")).resource with
    | none => rfl
    | some u => exact msgContinue_state s _

theorem maybeMessage_resolvers_get (s : BotState) (st : XNode) (id1 : String) :
    (maybeMessage s st).outState.resolvers.get id1 =
      if isMsgBasic st = true ∧ st.attr "id" = some id1 ∧ (s.resolvers.get id1).isSome = true
      then (s.resolvers.get id1).map (fun p => p.resolve none)
      else s.resolvers.get id1 := by
  by_cases hm : isMsgBasic st = true
  · rw [maybeMessage, if_pos hm]
    cases hres : resolverFor s st with
    | none =>
      rw [messageCore_nonecho_state s st hres]
      have hcond : ¬(isMsgBasic st = true ∧ st.attr "id" = some id1
          ∧ (s.resolvers.get id1).isSome = true) := by
        rintro ⟨-, hI, hS⟩
        rw [resolverFor, hI, Option.some_bind] at hres
        rw [hres] at hS
        simp at hS
      rw [if_neg hcond]
    | some p =>
      unfold messageCore
      rw [hres]
      rcases hI : st.attr "id" with - | i
      · rw [resolverFor, hI, Option.none_bind] at hres
        exact Option.noConfusion hres
      · rw [resolverFor, hI, Option.some_bind] at hres
        by_cases hii : i = id1
        · subst hii
          simp only [HandlerOut.outState]
          rw [ObjMap.get_set_self, hres]
          simp [hm, hI]
        · simp only [HandlerOut.outState]
          rw [ObjMap.get_set_ne _ _ _ _ (fun hh => hii hh.symm),
            if_neg (fun hc => hii (Option.some.inj hc.2.1))]
  · rw [maybeMessage_pass s st (by simpa using hm),
      if_neg (by rintro ⟨h1, -, -⟩; exact hm h1)]
    rfl

theorem presenceMergedState_not (s : BotState) (st : XNode)
    (h : st.isElemNamed "presence" = false) : presenceMergedState s st = s := by
  simp [presenceMergedState, h]

theorem presenceMergedState_resolvers (s : BotState) (st : XNode) :
    (presenceMergedState s st).resolvers = s.resolvers := by
  unfold presenceMergedState
  split <;> rfl

theorem presenceMergedState_profile (s : BotState) (st : XNode) :
    (presenceMergedState s st).profile = s.profile := by
  unfold presenceMergedState
  split <;> rfl

theorem inviteEvents_sent (s : BotState) (st : XNode) (e : Event)
    (he : e ∈ inviteEvents s st) : ∃ x, e = .sent x := by
  unfold inviteEvents at he
  split at he
  · simp only [List.mem_flatMap, List.mem_map] at he
    obtain ⟨x, -, a, -, rfl⟩ := he
    exact ⟨_, rfl⟩
  · simp at he

theorem inviteEvents_no_session (s : BotState) (st : XNode) :
    (inviteEvents s st).any Event.isSessionStart = false := by
  rw [List.any_eq_false]
  intro e he
  obtain ⟨x, rfl⟩ := inviteEvents_sent s st e he
  simp [Event.isSessionStart]

theorem inviteEvents_no_warn (s : BotState) (st : XNode) :
    (inviteEvents s st).any Event.isWarn = false := by
  rw [List.any_eq_false]
  intro e he
  obtain ⟨x, rfl⟩ := inviteEvents_sent s st e he
  simp [Event.isWarn]

theorem inviteEvents_no_err (s : BotState) (st : XNode) :
    (inviteEvents s st).any Event.isErr = false := by
  rw [List.any_eq_false]
  intro e he
  obtain ⟨x, rfl⟩ := inviteEvents_sent s st e he
  simp [Event.isErr]

theorem maybeVCard_resolvers (s : BotState) (st : XNode) :
    (maybeVCard s st).outState.resolvers = s.resolvers := by
  unfold maybeVCard vcardCore
  split
  · split
    · rfl
    · dsimp only
      split <;> rfl
  · rfl

theorem maybeVCard_directory (s : BotState) (st : XNode) :
    (maybeVCard s st).outState.directory = s.directory := by
  unfold maybeVCard vcardCore
  split
  · split
    · rfl
    · dsimp only
      split <;> rfl
  · rfl

theorem maybeVCard_not_pass (s : BotState) (st : XNode) (h : isVCardStanza st = true) :
    (maybeVCard s st).isPass = false := by
  have hv : (st.getChild "vCard").isSome = true := by
    simp only [isVCardStanza, Bool.and_eq_true] at h
    exact h.2
  obtain ⟨v, hveq⟩ := Option.isSome_iff_exists.mp hv
  unfold maybeVCard vcardCore
  rw [if_pos h, hveq]
  dsimp only
  split <;> rfl

theorem runChain_pass (n : String) (h : BotState → XNode → HandlerOut)
    (rest : List (String × (BotState → XNode → HandlerOut))) (s : BotState) (st : XNode)
    (s1 : BotState) (e1 : List Event) (hh : h s st = .pass s1 e1) :
    runChain ((n, h) :: rest) s st =
      ⟨(runChain rest s1 st).state, e1 ++ (runChain rest s1 st).events,
       n :: (runChain rest s1 st).tried, (runChain rest s1 st).handled,
       (runChain rest s1 st).crashed⟩ := by
  conv_lhs => rw [runChain]
  rw [hh]

theorem runChain_stop (n : String) (h : BotState → XNode → HandlerOut)
    (rest : List (String × (BotState → XNode → HandlerOut))) (s : BotState) (st : XNode)
    (s1 : BotState) (e1 : List Event) (hh : h s st = .stop s1 e1) :
    runChain ((n, h) :: rest) s st = ⟨s1, e1, [n], true, false⟩ := by
  conv_lhs => rw [runChain]
  rw [hh]

theorem runChain_crash (n : String) (h : BotState → XNode → HandlerOut)
    (rest : List (String × (BotState → XNode → HandlerOut))) (s : BotState) (st : XNode)
    (s1 : BotState) (e1 : List Event) (hh : h s st = .crash s1 e1) :
    runChain ((n, h) :: rest) s st = ⟨s1, e1, [n], false, true⟩ := by
  conv_lhs => rw [runChain]
  rw [hh]

theorem maybePresence_eq (s : BotState) (st : XNode) :
    maybePresence s st = .pass (presenceMergedState s st) [] := rfl

theorem maybeInvite_eq (s : BotState) (st : XNode) :
    maybeInvite s st = .pass s (inviteEvents s st) := rfl

/-- Chain behaviour on a unit consumed by none of the first three handlers:
the outcome is decided by the message handler, after which the presence and
invite handlers still run. -/
theorem classify_unconsumed (s : BotState) (st : XNode) (hv : isVCardStanza st = false)
    (hp : isProfileStanza st = false) (hq : isQueryStanza st = false) :
    classify s st =
      match maybeMessage s st with
      | .stop s4 e4 =>
        ⟨s4, e4, ["maybeVCard", "maybeProfile", "maybeBuddyList", "maybeMessage"], true, false⟩
      | .crash s4 e4 =>
        ⟨s4, e4, ["maybeVCard", "maybeProfile", "maybeBuddyList", "maybeMessage"], false, true⟩
      | .pass s4 e4 =>
        ⟨presenceMergedState s4 st,
         e4 ++ inviteEvents (presenceMergedState s4 st) st, CANON, false, false⟩ := by
  unfold classify handlers
  rw [runChain_pass _ _ _ _ _ _ _ (maybeVCard_pass s st hv),
      runChain_pass _ _ _ _ _ _ _ (maybeProfile_pass s st hp),
      runChain_pass _ _ _ _ _ _ _ (maybeBuddyList_pass s st hq)]
  cases hm : maybeMessage s st with
  | pass s4 e4 =>
    rw [runChain_pass _ _ _ _ _ _ _ hm,
        runChain_pass _ _ _ _ _ _ _ (maybePresence_eq s4 st),
        runChain_pass _ _ _ _ _ _ _ (maybeInvite_eq (presenceMergedState s4 st) st)]
    simp [runChain, CANON]
  | stop s4 e4 =>
    rw [runChain_stop _ _ _ _ _ _ _ hm]
    simp
  | crash s4 e4 =>
    rw [runChain_crash _ _ _ _ _ _ _ hm]
    simp

/-- Chain behaviour on a self-vCard unit: the vCard handler consumes or
aborts the chain, touching neither the resolver registry nor the
directory. -/
theorem classify_vcard (s : BotState) (st : XNode) (hv : isVCardStanza st = true) :
    (classify s st).state.resolvers = s.resolvers
    ∧ (classify s st).state.directory = s.directory
    ∧ (classify s st).tried = ["maybeVCard"]
    ∧ ((classify s st).handled = true ∨ (classify s st).crashed = true) := by
  have hnp := maybeVCard_not_pass s st hv
  have h1 := maybeVCard_resolvers s st
  have h2 := maybeVCard_directory s st
  cases hm : maybeVCard s st with
  | pass s1 e1 =>
    rw [hm] at hnp
    exact absurd hnp (by simp [HandlerOut.isPass])
  | stop s1 e1 =>
    rw [hm] at h1 h2
    simp only [HandlerOut.outState] at h1 h2
    unfold classify handlers
    rw [runChain_stop _ _ _ _ _ _ _ hm]
    exact ⟨h1, h2, rfl, Or.inl rfl⟩
  | crash s1 e1 =>
    rw [hm] at h1 h2
    simp only [HandlerOut.outState] at h1 h2
    unfold classify handlers
    rw [runChain_crash _ _ _ _ _ _ _ hm]
    exact ⟨h1, h2, rfl, Or.inr rfl⟩

theorem maybeProfile_stop (s : BotState) (st : XNode) (i : String)
    (hp : isProfileStanza st = true) (hI : st.attr "id" = some i) :
    maybeProfile s st = .stop (profileStopState s st i)
      (if (profileRecord s st).2 then [.error] else []) := by
  rw [maybeProfile, if_pos hp]
  unfold profileCore
  rw [hI]

/-- Chain behaviour on a profile reply not shaped like a vCard: the profile
handler consumes the unit with its merged-record stop state. -/
theorem classify_profile (s : BotState) (st : XNode) (hv : isVCardStanza st = false)
    (hp : isProfileStanza st = true) :
    ∃ i, st.attr "id" = some i ∧ strStartsWith i "profile:" = true ∧
      classify s st = ⟨profileStopState s st i,
        (if (profileRecord s st).2 then [.error] else []),
        ["maybeVCard", "maybeProfile"], true, false⟩ := by
  obtain ⟨i, hI, hpre⟩ := isProfileStanza_id st hp
  refine ⟨i, hI, hpre, ?_⟩
  unfold classify handlers
  rw [runChain_pass _ _ _ _ _ _ _ (maybeVCard_pass s st hv),
      runChain_stop _ _ _ _ _ _ _ (maybeProfile_stop s st i hp hI)]
  rfl

theorem maybeBuddyList_stop (s : BotState) (st : XNode) (q : XNode)
    (hq : st.getChild "query" = some q) :
    maybeBuddyList s st = .stop
      { s with directory := (q.getChildren "item").foldl itemMerge s.directory } [] := by
  simp [maybeBuddyList, isQueryStanza, hq]

/-- Chain behaviour on a unit with a `query` child not consumed earlier:
the buddy-list handler consumes it, merging every item into the
directory. -/
theorem classify_query (s : BotState) (st : XNode) (q : XNode)
    (hv : isVCardStanza st = false) (hp : isProfileStanza st = false)
    (hq : st.getChild "query" = some q) :
    classify s st =
      ⟨{ s with directory := (q.getChildren "item").foldl itemMerge s.directory },
       [], ["maybeVCard", "maybeProfile", "maybeBuddyList"], true, false⟩ := by
  unfold classify handlers
  rw [runChain_pass _ _ _ _ _ _ _ (maybeVCard_pass s st hv),
      runChain_pass _ _ _ _ _ _ _ (maybeProfile_pass s st hp),
      runChain_stop _ _ _ _ _ _ _ (maybeBuddyList_stop s st q hq)]
  rfl

theorem profileStopState_resolvers_get (s : BotState) (st : XNode) (i id1 : String)
    (hii : i ≠ id1) :
    (profileStopState s st i).resolvers.get id1 = s.resolvers.get id1 := by
  unfold profileStopState
  cases hg : s.resolvers.get i with
  | none => rfl
  | some p => exact ObjMap.get_set_ne _ _ _ _ (Ne.symm hii)

theorem profileStopState_resolvers_isSome (s : BotState) (st : XNode) (i id1 : String)
    (h : (s.resolvers.get id1).isSome = true) :
    ((profileStopState s st i).resolvers.get id1).isSome = true := by
  unfold profileStopState
  cases hg : s.resolvers.get i with
  | none => exact h
  | some p => exact ObjMap.isSome_get_set _ _ _ _ h

theorem profileStopState_resolves (s : BotState) (st : XNode) (i : String)
    (p : PromiseState) (hg : s.resolvers.get i = some p) :
    (profileStopState s st i).resolvers.get i
      = some (p.resolve (some (profileRecord s st).1)) := by
  unfold profileStopState
  rw [hg]
  exact ObjMap.get_set_self _ _ _

theorem classify_resolvers_unconsumed (s : BotState) (st : XNode)
    (hv : isVCardStanza st = false) (hp : isProfileStanza st = false)
    (hq : isQueryStanza st = false) :
    (classify s st).state.resolvers = (maybeMessage s st).outState.resolvers := by
  rw [classify_unconsumed s st hv hp hq]
  cases hm : maybeMessage s st with
  | pass s4 e4 =>
    dsimp only [HandlerOut.outState]
    exact presenceMergedState_resolvers s4 st
  | stop s4 e4 => rfl
  | crash s4 e4 => rfl

/-- How one inbound unit changes the resolver entry under an identifier
that does not carry the `profile:` marker: the entry is called (with no
payload) exactly when the unit reaches the message handler's receipt branch
for that identifier, and is untouched otherwise. -/
theorem classify_resolvers_get (s : BotState) (st : XNode) (id1 : String)
    (hid : strStartsWith id1 "profile:" = false) :
    (classify s st).state.resolvers.get id1 =
      if echoesId st id1 = true
      then (s.resolvers.get id1).map (fun p => p.resolve none)
      else s.resolvers.get id1 := by
  cases hv : isVCardStanza st with
  | true =>
    have hE : echoesId st id1 = false := by simp [echoesId, hv]
    rw [hE, (classify_vcard s st hv).1]
    simp
  | false =>
    cases hp : isProfileStanza st with
    | true =>
      obtain ⟨i, hI, hpre, hcl⟩ := classify_profile s st hv hp
      have hii : i ≠ id1 := fun hh => by
        rw [hh, hid] at hpre
        exact Bool.noConfusion hpre
      have hE : echoesId st id1 = false := by simp [echoesId, hp]
      rw [hE, hcl]
      dsimp only
      rw [profileStopState_resolvers_get s st i id1 hii]
      simp
    | false =>
      cases hq0 : isQueryStanza st with
      | true =>
        obtain ⟨q, hq⟩ := Option.isSome_iff_exists.mp (by simpa [isQueryStanza] using hq0)
        have hE : echoesId st id1 = false := by simp [echoesId, hq0]
        rw [hE, classify_query s st q hv hp hq]
        simp
      | false =>
        rw [classify_resolvers_unconsumed s st hv hp hq0,
          maybeMessage_resolvers_get s st id1]
        by_cases hb : isMsgBasic st = true
        · by_cases hI : st.attr "id" = some id1
          · have hE : echoesId st id1 = true := by
              simp [echoesId, hv, hp, hq0, hb, hI]
            rw [hE]
            by_cases hS : (s.resolvers.get id1).isSome = true
            · rw [if_pos ⟨hb, hI, hS⟩]
              simp
            · rw [if_neg (fun hc => hS hc.2.2)]
              have hnone : s.resolvers.get id1 = none := by
                cases hgg : s.resolvers.get id1 with
                | none => rfl
                | some p =>
                  rw [hgg] at hS
                  simp at hS
              rw [hnone]
              simp
          · have hE : echoesId st id1 = false := by simp [echoesId, hI]
            rw [if_neg (fun hc => hI hc.2.1), hE]
            simp
        · have hE : echoesId st id1 = false := by simp [echoesId, hb]
          rw [if_neg (fun hc => hb hc.1), hE]
          simp

/-- No inbound unit ever removes a resolver entry: a registered identifier
stays registered (pending or resolved) across classification. -/
theorem classify_resolvers_isSome (s : BotState) (st : XNode) (id1 : String)
    (h : (s.resolvers.get id1).isSome = true) :
    ((classify s st).state.resolvers.get id1).isSome = true := by
  cases hv : isVCardStanza st with
  | true =>
    rw [(classify_vcard s st hv).1]
    exact h
  | false =>
    cases hp : isProfileStanza st with
    | true =>
      obtain ⟨i, hI, hpre, hcl⟩ := classify_profile s st hv hp
      rw [hcl]
      dsimp only
      exact profileStopState_resolvers_isSome s st i id1 h
    | false =>
      cases hq0 : isQueryStanza st with
      | true =>
        obtain ⟨q, hq⟩ := Option.isSome_iff_exists.mp (by simpa [isQueryStanza] using hq0)
        rw [classify_query s st q hv hp hq]
        exact h
      | false =>
        rw [classify_resolvers_unconsumed s st hv hp hq0,
          maybeMessage_resolvers_get s st id1]
        split
        · obtain ⟨p, hp2⟩ := Option.isSome_iff_exists.mp h
          rw [hp2]
          rfl
        · exact h

theorem processTrace_cons (s : BotState) (x : XNode) (t : List XNode) :
    processTrace s (x :: t) = processTrace (classify s x).state t := rfl

theorem processTrace_append (s : BotState) (a b : List XNode) :
    processTrace s (a ++ b) = processTrace (processTrace s a) b := by
  simp [processTrace, List.foldl_append]

theorem trace_resolvers_pres (id1 : String) (hid : strStartsWith id1 "profile:" = false) :
    ∀ (pre : List XNode) (s : BotState), (∀ st ∈ pre, echoesId st id1 = false) →
      (processTrace s pre).resolvers.get id1 = s.resolvers.get id1 := by
  intro pre
  induction pre with
  | nil => intro s _; rfl
  | cons x t ih =>
    intro s hall
    rw [processTrace_cons, ih _ (fun st hst => hall st (List.mem_cons_of_mem x hst)),
      classify_resolvers_get s x id1 hid, hall x (List.mem_cons_self x t)]
    simp

theorem trace_resolvers_stable (id1 : String) (tok : Nat)
    (hid : strStartsWith id1 "profile:" = false) :
    ∀ (post : List XNode) (s : BotState),
      s.resolvers.get id1 = some (.resolved tok none) →
      (processTrace s post).resolvers.get id1 = some (.resolved tok none) := by
  intro post
  induction post with
  | nil => intro s h; exact h
  | cons x t ih =>
    intro s h
    rw [processTrace_cons]
    apply ih
    rw [classify_resolvers_get s x id1 hid]
    split
    · rw [h]
      rfl
    · exact h

theorem breakSlash_no (l : List Char) (h : ∀ c ∈ l, ¬(c = '/')) :
    breakSlash l = (l, none) := by
  induction l with
  | nil => rfl
  | cons c t ih =>
    rw [breakSlash, if_neg (h c (List.mem_cons_self c t)),
      ih (fun c2 hc2 => h c2 (List.mem_cons_of_mem c hc2))]

theorem breakSlash_app (l r : List Char) (h : ∀ c ∈ l, ¬(c = '/')) :
    breakSlash (l ++ '/' :: r) = (l, some r) := by
  induction l with
  | nil => simp [breakSlash]
  | cons c t ih =>
    rw [List.cons_append, breakSlash, if_neg (h c (List.mem_cons_self c t)),
      ih (fun c2 hc2 => h c2 (List.mem_cons_of_mem c hc2))]

/-- Re-parsing a stringified JID with a slash-free bare part recovers the
bare part, so `new JID(to.toString()).bare()` strips exactly the resource. -/
theorem parse_toStr_bare (j : JID) (h : noSlash j.bareStr = true) :
    (parseJID j.toStr).bare.toStr = j.bareStr := by
  have hall : ∀ c ∈ j.bareStr.data, ¬(c = '/') := by
    intro c hc
    have := List.all_eq_true.mp h c hc
    simpa using this
  obtain ⟨b, r⟩ := j
  cases r with
  | none =>
    show (parseJID b).bare.toStr = b
    unfold parseJID
    rw [breakSlash_no b.data hall]
    rfl
  | some r =>
    show (parseJID ⟨b.data ++ '/' :: r.data⟩).bare.toStr = b
    unfold parseJID
    rw [show (⟨b.data ++ '/' :: r.data⟩ : String).data = b.data ++ '/' :: r.data from rfl,
      breakSlash_app b.data r.data hall]
    rfl

theorem profileParse_jid (q0 : Option XNode) (b : Buddy) :
    ((profileParse q0 b).1).jid = b.jid := by
  cases q0 with
  | none => rfl
  | some q =>
    cases hn : (q.getChildren "name").head? with
    | none => simp [profileParse, hn]
    | some nEl =>
      cases hm : (q.getChildren "mention_name").head? with
      | none => simp [profileParse, hn, hm]
      | some mEl =>
        cases ht : (q.getChildren "timezone").head? with
        | none => simp [profileParse, hn, hm, ht]
        | some tEl => simp [profileParse, hn, hm, ht]

theorem profileParse_presence (q0 : Option XNode) (b : Buddy) :
    ((profileParse q0 b).1).presence = b.presence := by
  cases q0 with
  | none => rfl
  | some q =>
    cases hn : (q.getChildren "name").head? with
    | none => simp [profileParse, hn]
    | some nEl =>
      cases hm : (q.getChildren "mention_name").head? with
      | none => simp [profileParse, hn, hm]
      | some mEl =>
        cases ht : (q.getChildren "timezone").head? with
        | none => simp [profileParse, hn, hm, ht]
        | some tEl => simp [profileParse, hn, hm, ht]

theorem itemMerge_get_ne (dir : ObjMap Buddy) (el : XNode) (k : String)
    (h : itemKey el ≠ k) : (itemMerge dir el).get k = dir.get k := by
  unfold itemMerge
  exact ObjMap.get_set_ne _ _ _ _ (Ne.symm h)

theorem foldl_itemMerge_frame (items : List XNode) :
    ∀ (dir : ObjMap Buddy) (k : String), (∀ el ∈ items, itemKey el ≠ k) →
      (items.foldl itemMerge dir).get k = dir.get k := by
  induction items with
  | nil => intro dir k _; rfl
  | cons e0 t ih =>
    intro dir k hall
    rw [List.foldl_cons,
      ih _ k (fun el hel => hall el (List.mem_cons_of_mem e0 hel)),
      itemMerge_get_ne dir e0 k (hall e0 (List.mem_cons_self e0 t))]

theorem foldl_itemMerge_get (items : List XNode) :
    ∀ dir : ObjMap Buddy, ((items.map itemKey).Nodup) →
      ∀ el ∈ items, (items.foldl itemMerge dir).get (itemKey el)
        = some (itemRecord (dir.get (itemKey el)) el) := by
  induction items with
  | nil =>
    intro dir _ el hel
    simp at hel
  | cons e0 t ih =>
    intro dir hnd el hel
    rw [List.map_cons] at hnd
    have hnd2 := List.nodup_cons.mp hnd
    rw [List.foldl_cons]
    rcases List.mem_cons.mp hel with rfl | hel2
    · rw [foldl_itemMerge_frame t (itemMerge dir el) (itemKey el)
        (fun el2 hel2 hk => hnd2.1 (hk ▸ List.mem_map_of_mem itemKey hel2))]
      unfold itemMerge
      rw [ObjMap.get_set_self]
    · have hne : itemKey e0 ≠ itemKey el :=
        fun hk => hnd2.1 (hk ▸ List.mem_map_of_mem itemKey hel2)
      rw [ih (itemMerge dir e0) hnd2.2 el hel2,
        itemMerge_get_ne dir e0 (itemKey el) hne]

/-- Claim C4 (amended): resolving a correlation entry completes its future
(the first matching inbound unit turns a pending entry into a resolved one),
but the entry is never removed from the registry — classification never
deletes a resolver entry, whether or not a matching unit arrives; a reply
carrying a `profile:` identifier likewise calls the registered resolver
without removing it. -/
theorem c4_thm (s : BotState) (st : XNode) (id1 : String) (tok : Nat) :
    (s.resolvers.get id1 = some (.pending tok) → echoesId st id1 = true →
        (classify s st).state.resolvers.get id1 = some (.resolved tok none))
    ∧ ((s.resolvers.get id1).isSome = true →
        ((classify s st).state.resolvers.get id1).isSome = true)
    ∧ (∀ p, s.resolvers.get id1 = some p → isVCardStanza st = false →
        isProfileStanza st = true → st.attr "id" = some id1 →
        ∃ b, (classify s st).state.resolvers.get id1 = some (p.resolve (some b))) := by
  refine ⟨?_, fun h => classify_resolvers_isSome s st id1 h, ?_⟩
  · intro hpend he
    simp only [echoesId, Bool.and_eq_true, Bool.not_eq_true', decide_eq_true_eq] at he
    obtain ⟨⟨⟨⟨hv, hp⟩, hq⟩, hb⟩, hI⟩ := he
    rw [classify_resolvers_unconsumed s st hv hp hq,
      maybeMessage_resolvers_get s st id1,
      if_pos ⟨hb, hI, by rw [hpend]; rfl⟩, hpend]
    rfl
  · intro p hp2 hv hp hI
    obtain ⟨i, hI2, hpre, hcl⟩ := classify_profile s st hv hp
    have hii : i = id1 := Option.some.inj (hI2.symm.trans hI)
    subst hii
    rw [hcl]
    exact ⟨(profileRecord s st).1, profileStopState_resolves s st i p hp2⟩

/-- Claim C4 counterexample: after the matching self-echo unit arrives and
is consumed, the entry for its identifier is still present in the registry —
it is not removed. -/
theorem c4_cex :
    (classify ⟨[("i1", .pending 0)], [], {}⟩
      (.elem "message" [("id", "i1"), ("type", "chat"), ("from", "bob@x")]
        [.elem "body" [] [.text "ok"]])).handled = true
    ∧ ((classify ⟨[("i1", .pending 0)], [], {}⟩
      (.elem "message" [("id", "i1"), ("type", "chat"), ("from", "bob@x")]
        [.elem "body" [] [.text "ok"]])).state.resolvers.get "i1").isSome = true :=
  ⟨rfl, rfl⟩

/-- Claim C4 witness: a pending entry for `i1` is completed by the matching
echo unit and the entry stays registered. -/
theorem c4_wit :
    (classify ⟨[("i1", PromiseState.pending 0)], [], {}⟩
      (.elem "message" [("id", "i1"), ("type", "chat"), ("from", "bob@x")]
        [.elem "body" [] [.text "ok"]])).state.resolvers.get "i1"
        = some (.resolved 0 none)
    ∧ ((classify ⟨[("i1", PromiseState.pending 0)], [], {}⟩
      (.elem "message" [("id", "i1"), ("type", "chat"), ("from", "bob@x")]
        [.elem "body" [] [.text "ok"]])).state.resolvers.get "i1").isSome = true :=
  ⟨(c4_thm ⟨[("i1", PromiseState.pending 0)], [], {}⟩
      (.elem "message" [("id", "i1"), ("type", "chat"), ("from", "bob@x")]
        [.elem "body" [] [.text "ok"]]) "i1" 0).1 rfl rfl,
   (c4_thm ⟨[("i1", PromiseState.pending 0)], [], {}⟩
      (.elem "message" [("id", "i1"), ("type", "chat"), ("from", "bob@x")]
        [.elem "body" [] [.text "ok"]]) "i1" 0).2.1 rfl⟩

/-- Claim C5 (amended): registering an identifier that already has a live
entry is not rejected — both `send` and `fullProfile` silently overwrite the
registry slot with the resolver of the fresh future, replacing the pending
continuation. -/
theorem c5_thm (s : BotState) (to1 : JID) (msg id1 : String) (tok : Nat)
    (p : PromiseState) (h : s.resolvers.get id1 = some p)
    (u : String) (tok2 : Nat) (p2 : PromiseState)
    (h2 : s.resolvers.get ("profile:" ++ u) = some p2) :
    (send s to1 msg id1 tok).1.resolvers.get id1 = some (.pending tok)
    ∧ (fullProfile s to1 u tok2).1.resolvers.get ("profile:" ++ u)
        = some (.pending tok2) := by
  exact ⟨ObjMap.get_set_self _ _ _, ObjMap.get_set_self _ _ _⟩

/-- Claim C5 counterexample: with a live pending entry (future 0) under
identifier `x`, a `send` generating the same identifier replaces the entry
with the fresh future 1 instead of rejecting the registration. -/
theorem c5_cex :
    (⟨[("x", PromiseState.pending 0)], [], {}⟩ : BotState).resolvers.get "x"
        = some (.pending 0)
    ∧ (send ⟨[("x", PromiseState.pending 0)], [], {}⟩ ⟨"bob@x", none⟩
        "hello" "x" 1).1.resolvers.get "x" = some (.pending 1) :=
  ⟨rfl, rfl⟩

/-- Claim C5 witness: the overwrite theorem applied at a concrete state with
live entries under both identifiers. -/
theorem c5_wit :
    (send ⟨[("x", PromiseState.pending 0), ("profile:u1", PromiseState.pending 5)],
        [], {}⟩ ⟨"bob@x", none⟩ "hello" "x" 1).1.resolvers.get "x"
        = some (.pending 1)
    ∧ (fullProfile ⟨[("x", PromiseState.pending 0),
        ("profile:u1", PromiseState.pending 5)], [], {}⟩ ⟨"bob@x", none⟩
        "u1" 6).1.resolvers.get "profile:u1" = some (.pending 6) :=
  c5_thm ⟨[("x", PromiseState.pending 0), ("profile:u1", PromiseState.pending 5)], [], {}⟩
    ⟨"bob@x", none⟩ "hello" "x" 1 (PromiseState.pending 0) rfl
    "u1" 6 (PromiseState.pending 5) rfl

/-- Claim C7: the future returned by `send` stays unresolved while no
inbound unit reaches the receipt branch for its identifier, resolves with no
payload on the first unit that does, and is unaffected by any later units,
including duplicate echoes with the same identifier. -/
theorem c7_thm (s0 : BotState) (id1 : String) (tok : Nat)
    (hpend : s0.resolvers.get id1 = some (.pending tok))
    (hid : strStartsWith id1 "profile:" = false) :
    (∀ pre : List XNode, (∀ st ∈ pre, echoesId st id1 = false) →
        (processTrace s0 pre).resolvers.get id1 = some (.pending tok))
    ∧ (∀ (pre : List XNode) (e : XNode) (post : List XNode),
        (∀ st ∈ pre, echoesId st id1 = false) → echoesId e id1 = true →
        (processTrace s0 (pre ++ e :: post)).resolvers.get id1
          = some (.resolved tok none)) := by
  constructor
  · intro pre hall
    rw [trace_resolvers_pres id1 hid pre s0 hall, hpend]
  · intro pre e post hall he
    rw [processTrace_append, processTrace_cons]
    apply trace_resolvers_stable id1 tok hid post
    rw [classify_resolvers_get _ e id1 hid, he, if_pos rfl,
      trace_resolvers_pres id1 hid pre s0 hall, hpend]
    rfl

/-- Claim C7 witness: a registered pending future for `abc` survives an
unrelated message, resolves with no payload on its echo, and a duplicate
echo afterwards leaves it resolved exactly the same way. -/
theorem c7_wit :
    (processTrace ⟨[("abc", PromiseState.pending 0)], [], {}⟩
        [.elem "message" [("id", "zzz"), ("type", "chat"), ("from", "bob@x")]
          [.elem "body" [] [.text "other"]]]).resolvers.get "abc"
        = some (.pending 0)
    ∧ (processTrace ⟨[("abc", PromiseState.pending 0)], [], {}⟩
        ([.elem "message" [("id", "zzz"), ("type", "chat"), ("from", "bob@x")]
          [.elem "body" [] [.text "other"]]] ++
         (.elem "message" [("id", "abc"), ("type", "chat"), ("from", "bob@x")]
          [.elem "body" [] [.text "hello"]]) ::
         [.elem "message" [("id", "abc"), ("type", "chat"), ("from", "bob@x")]
          [.elem "body" [] [.text "hello"]]])).resolvers.get "abc"
        = some (.resolved 0 none) :=
  ⟨(c7_thm ⟨[("abc", PromiseState.pending 0)], [], {}⟩ "abc" 0 rfl rfl).1
      [.elem "message" [("id", "zzz"), ("type", "chat"), ("from", "bob@x")]
        [.elem "body" [] [.text "other"]]] (by intro st hst; simp at hst; rw [hst]; rfl),
   (c7_thm ⟨[("abc", PromiseState.pending 0)], [], {}⟩ "abc" 0 rfl rfl).2
      [.elem "message" [("id", "zzz"), ("type", "chat"), ("from", "bob@x")]
        [.elem "body" [] [.text "other"]]]
      (.elem "message" [("id", "abc"), ("type", "chat"), ("from", "bob@x")]
        [.elem "body" [] [.text "hello"]])
      [.elem "message" [("id", "abc"), ("type", "chat"), ("from", "bob@x")]
        [.elem "body" [] [.text "hello"]]]
      (by intro st hst; simp at hst; rw [hst]; rfl) rfl⟩

/-- Claim C6 (amended): classification evaluates the handlers in the fixed
source order self-vCard, profile reply, roster, conversational message,
presence, invite, stopping at the first that reports the unit consumed; the
evaluated prefix always follows that order, only one of the first four
handlers can consume a unit, and a unit consumed by none of them (without a
thrown error) is inspected by all six — in particular the presence handler
never stops the chain, so the invite handler still sees presence units. -/
theorem c6_thm (s : BotState) (st : XNode) :
    (classify s st).tried = CANON.take (classify s st).tried.length
    ∧ ((classify s st).handled = true → (classify s st).tried.length ≤ 4)
    ∧ ((classify s st).handled = false → (classify s st).crashed = false →
        (classify s st).tried = CANON) := by
  cases hv : isVCardStanza st with
  | true =>
    obtain ⟨-, -, ht, hoc⟩ := classify_vcard s st hv
    rw [ht]
    cases hoc with
    | inl hh =>
      refine ⟨by decide, fun _ => by decide, fun h1 _ => ?_⟩
      rw [hh] at h1
      exact Bool.noConfusion h1
    | inr hc =>
      refine ⟨by decide, fun _ => by decide, fun _ h2 => ?_⟩
      rw [hc] at h2
      exact Bool.noConfusion h2
  | false =>
    cases hp : isProfileStanza st with
    | true =>
      obtain ⟨i, hI, hpre, hcl⟩ := classify_profile s st hv hp
      rw [hcl]
      exact ⟨by dsimp only; decide, fun _ => by dsimp only; decide,
        fun h1 _ => Bool.noConfusion h1⟩
    | false =>
      cases hq0 : isQueryStanza st with
      | true =>
        obtain ⟨q, hq⟩ := Option.isSome_iff_exists.mp (by simpa [isQueryStanza] using hq0)
        rw [classify_query s st q hv hp hq]
        exact ⟨by dsimp only; decide, fun _ => by dsimp only; decide,
          fun h1 _ => Bool.noConfusion h1⟩
      | false =>
        rw [classify_unconsumed s st hv hp hq0]
        cases hm : maybeMessage s st with
        | pass s4 e4 =>
          exact ⟨by dsimp only; decide, fun h1 => Bool.noConfusion h1, fun _ _ => rfl⟩
        | stop s4 e4 =>
          exact ⟨by dsimp only; decide, fun _ => by dsimp only; decide,
            fun h1 _ => Bool.noConfusion h1⟩
        | crash s4 e4 =>
          exact ⟨by dsimp only; decide, fun h1 => Bool.noConfusion h1,
            fun _ h2 => Bool.noConfusion h2⟩

/-- Claim C6 counterexample: a presence unit is processed by the presence
handler (the contact's presence is written), yet the chain does not stop
there — all six handlers inspect the unit, the invite handler after the
presence handler, and the chain reports the unit unhandled. -/
theorem c6_cex :
    (classify ⟨[], [], {}⟩ (.elem "presence" [("from", "alice@x/phone")]
      [.elem "show" [] [.text "dnd"]])).tried = CANON
    ∧ (classify ⟨[], [], {}⟩ (.elem "presence" [("from", "alice@x/phone")]
      [.elem "show" [] [.text "dnd"]])).handled = false
    ∧ ((classify ⟨[], [], {}⟩ (.elem "presence" [("from", "alice@x/phone")]
      [.elem "show" [] [.text "dnd"]])).state.directory.get "alice@x").bind
        Buddy.presence = some "dnd" :=
  ⟨rfl, rfl, rfl⟩

/-- Claim C6 witness: the order theorem applied to a consumed self-echo unit
(the chain stops within the first four handlers) and to a presence unit (all
six handlers evaluated). -/
theorem c6_wit :
    (classify ⟨[("z", PromiseState.pending 0)], [], {}⟩
      (.elem "message" [("id", "z"), ("type", "chat"), ("from", "bob@x")]
        [.elem "body" [] [.text "ok"]])).tried.length ≤ 4
    ∧ (classify ⟨[], [], {}⟩ (.elem "presence" [("from", "alice@x/phone")]
      [.elem "show" [] [.text "dnd"]])).tried = CANON :=
  ⟨(c6_thm ⟨[("z", PromiseState.pending 0)], [], {}⟩
      (.elem "message" [("id", "z"), ("type", "chat"), ("from", "bob@x")]
        [.elem "body" [] [.text "ok"]])).2.1 rfl,
   (c6_thm ⟨[], [], {}⟩ (.elem "presence" [("from", "alice@x/phone")]
      [.elem "show" [] [.text "dnd"]])).2.2 rfl rfl⟩

/-- Claim C1 (amended): on a profile reply whose expected child structure
makes the field extraction throw, the handler catches the failure, emits the
recoverable `error` event and reports the unit handled — but it does not
leave the state unchanged: it still writes the partially merged contact
record (carrying at least the sender's JID) into the Directory under the
sender's bare address, and still resolves any pending continuation for the
unit's identifier with that partial record. -/
theorem c1_thm (s : BotState) (st : XNode) (f i : String)
    (hiq : st.isElemNamed "iq" = true)
    (hvc : st.getChild "vCard" = none)
    (hid : st.attr "id" = some i)
    (hpref : strStartsWith i "profile:" = true)
    (hfrom : st.attr "from" = some f)
    (herr : (profileRecord s st).2 = true) :
    (classify s st).handled = true
    ∧ (classify s st).crashed = false
    ∧ (classify s st).events.any Event.isErr = true
    ∧ ((classify s st).state.directory.get (parseJID f).bareStr).map Buddy.jid
        = some (some (parseJID f))
    ∧ ∀ tok, s.resolvers.get i = some (.pending tok) →
        ∃ b, (classify s st).state.resolvers.get i = some (.resolved tok (some b)) := by
  have hv : isVCardStanza st = false := by simp [isVCardStanza, hvc]
  have hp : isProfileStanza st = true := by simp [isProfileStanza, hiq, hid, hpref]
  obtain ⟨i2, hI2, hpre2, hcl⟩ := classify_profile s st hv hp
  have hii : i2 = i := Option.some.inj (hI2.symm.trans hid)
  subst hii
  have hkey : profileKey st = (parseJID f).bareStr := by
    rw [profileKey, hfrom]
    rfl
  rw [hcl]
  refine ⟨rfl, rfl, ?_, ?_, ?_⟩
  · dsimp only
    rw [if_pos herr]
    rfl
  · dsimp only
    unfold profileStopState
    dsimp only
    rw [← hkey, ObjMap.get_set_self,
      show Option.map Buddy.jid (some (profileRecord s st).1)
        = some ((profileRecord s st).1.jid) from rfl,
      show (profileRecord s st).1.jid = some (newJID (st.attr "from")) from
        profileParse_jid _ _, hfrom]
    rfl
  · intro tok hpend
    dsimp only
    exact ⟨(profileRecord s st).1, by
      rw [profileStopState_resolves s st i2 (.pending tok) hpend]
      rfl⟩

/-- Claim C1 counterexample: a profile reply with no `query` child is caught
and reported handled with an `error` event, but the Directory gains a record
for the sender and the pending continuation is resolved — the state is not
left unchanged. -/
theorem c1_cex :
    (classify ⟨[("profile:1", PromiseState.pending 0)], [], {}⟩
      (.elem "iq" [("id", "profile:1"), ("from", "alice@x"), ("type", "result")]
        [])).handled = true
    ∧ (classify ⟨[("profile:1", PromiseState.pending 0)], [], {}⟩
      (.elem "iq" [("id", "profile:1"), ("from", "alice@x"), ("type", "result")]
        [])).events.any Event.isErr = true
    ∧ ((classify ⟨[("profile:1", PromiseState.pending 0)], [], {}⟩
      (.elem "iq" [("id", "profile:1"), ("from", "alice@x"), ("type", "result")]
        [])).state.directory.get "alice@x").isSome = true
    ∧ ((classify ⟨[("profile:1", PromiseState.pending 0)], [], {}⟩
      (.elem "iq" [("id", "profile:1"), ("from", "alice@x"), ("type", "result")]
        [])).state.resolvers.get "profile:1").map PromiseState.isPending
        = some false :=
  ⟨rfl, rfl, rfl, rfl⟩

/-- Claim C1 witness: the amended theorem applied to the malformed reply,
showing the pending continuation is resolved with the partial record. -/
theorem c1_wit :
    ∃ b, (classify ⟨[("profile:1", PromiseState.pending 0)], [], {}⟩
      (.elem "iq" [("id", "profile:1"), ("from", "alice@x"), ("type", "result")]
        [])).state.resolvers.get "profile:1" = some (.resolved 0 (some b)) :=
  (c1_thm ⟨[("profile:1", PromiseState.pending 0)], [], {}⟩
    (.elem "iq" [("id", "profile:1"), ("from", "alice@x"), ("type", "result")] [])
    "alice@x" "profile:1" rfl rfl rfl rfl rfl rfl).2.2.2.2 0 rfl

/-- Claim C2 (amended): for a group-chat message the resolved identity is
the FIRST Directory contact, in insertion order, whose display name equals
the sender's resource; only when no contact matches is the message dropped
with a warning and no session dispatch — when several contacts share the
display name the first one is used and the session is dispatched for it. -/
theorem c2_thm (s : BotState) (st : XNode) (f : String) (pj : JID)
    (hmsg : st.isElemNamed "message" = true)
    (hbody : (st.getChildText "body").getD "" ≠ "")
    (htype : st.attr "type" = some "groupchat")
    (hq : isQueryStanza st = false)
    (hres : resolverFor s st = none)
    (hfrom : st.attr "from" = some f)
    (hpj : s.profile.jid = some pj) :
    (findGroupUser s (parseJID f).resource = none →
        (classify s st).handled = false
        ∧ (classify s st).events.any Event.isWarn = true
        ∧ (classify s st).events.any Event.isSessionStart = false
        ∧ (classify s st).state = s)
    ∧ (∀ u uj, findGroupUser s (parseJID f).resource = some u → u.jid = some uj →
        uj.bareStr ≠ pj.bareStr →
        (classify s st).events.any (Event.isSessionStartedJ uj) = true
        ∧ (classify s st).handled = false
        ∧ (classify s st).state = s) := by
  have hiq : st.isElemNamed "iq" = false := isElemNamed_ne st "message" "iq" hmsg (by decide)
  have hpres : st.isElemNamed "presence" = false :=
    isElemNamed_ne st "message" "presence" hmsg (by decide)
  have hv : isVCardStanza st = false := by simp [isVCardStanza, hiq]
  have hp : isProfileStanza st = false := by simp [isProfileStanza, hiq]
  have hb : isMsgBasic st = true := by simp [isMsgBasic, hmsg, hbody, htype]
  have hcl := classify_unconsumed s st hv hp hq
  have hmm : maybeMessage s st = messageCore s st := by rw [maybeMessage, if_pos hb]
  have hmc : messageCore s st =
      (match findGroupUser s (parseJID f).resource with
       | none => .pass s [.warn ("No user " ++ (parseJID f).resource.getD "null")]
       | some u => msgContinue s u.jid) := by
    unfold messageCore
    rw [hres, hfrom,
      if_neg (fun hh => by
        rw [htype] at hh
        injection hh with hh2
        exact absurd hh2 (by decide))]
    rfl
  constructor
  · intro hfind
    have hmsg2 : maybeMessage s st
        = .pass s [.warn ("No user " ++ (parseJID f).resource.getD "null")] := by
      rw [hmm, hmc, hfind]
    have hout : classify s st =
        ⟨s, [.warn ("No user " ++ (parseJID f).resource.getD "null")]
          ++ inviteEvents s st, CANON, false, false⟩ := by
      rw [hcl, hmsg2]
      dsimp only
      rw [presenceMergedState_not s st hpres]
    rw [hout]
    refine ⟨rfl, ?_, ?_, rfl⟩
    · simp [Event.isWarn]
    · simp [List.any_append, Event.isSessionStart, inviteEvents_no_session]
  · intro u uj hfind hujid hneq
    have hmsg2 : maybeMessage s st = .pass s [.sessionStarted uj] := by
      rw [hmm, hmc, hfind]
      dsimp only
      unfold msgContinue
      rw [hpj]
      dsimp only
      rw [hujid]
      dsimp only
      rw [if_neg (fun hh => hneq hh.symm)]
    have hout : classify s st =
        ⟨s, [.sessionStarted uj] ++ inviteEvents s st, CANON, false, false⟩ := by
      rw [hcl, hmsg2]
      dsimp only
      rw [presenceMergedState_not s st hpres]
    rw [hout]
    refine ⟨?_, rfl, rfl⟩
    simp [Event.isSessionStartedJ]

/-- Claim C2 counterexample: with two Directory contacts both displaying the
name `Alice`, a group-chat message from `room@x/Alice` is not dropped as
undeliverable — no warning is emitted and a session is dispatched for the
first matching contact. -/
theorem c2_cex :
    ((⟨[], [("mallory@x", { jid := some ⟨"mallory@x", none⟩, name := some (.text "Alice") }),
        ("alice@x", { jid := some ⟨"alice@x", none⟩, name := some (.text "Alice") })],
      { jid := some ⟨"bot@x", none⟩ }⟩ : BotState).directory.values.filter
        (fun u => nameIs u.name (some "Alice"))).length = 2
    ∧ (classify ⟨[], [("mallory@x", { jid := some ⟨"mallory@x", none⟩, name := some (.text "Alice") }),
        ("alice@x", { jid := some ⟨"alice@x", none⟩, name := some (.text "Alice") })],
      { jid := some ⟨"bot@x", none⟩ }⟩
      (.elem "message" [("type", "groupchat"), ("from", "room@x/Alice")]
        [.elem "body" [] [.text "hi"]])).events
        = [.sessionStarted ⟨"mallory@x", none⟩]
    ∧ (classify ⟨[], [("mallory@x", { jid := some ⟨"mallory@x", none⟩, name := some (.text "Alice") }),
        ("alice@x", { jid := some ⟨"alice@x", none⟩, name := some (.text "Alice") })],
      { jid := some ⟨"bot@x", none⟩ }⟩
      (.elem "message" [("type", "groupchat"), ("from", "room@x/Alice")]
        [.elem "body" [] [.text "hi"]])).events.any Event.isWarn = false :=
  ⟨rfl, rfl, rfl⟩

/-- Claim C2 witness: the amended theorem applied to a directory with one
matching contact (dispatch for it) — and, via the other conjunct, to a
resource with no matching contact (warning, no dispatch). -/
theorem c2_wit :
    ((classify ⟨[], [("alice@x", { jid := some ⟨"alice@x", none⟩, name := some (.text "Alice") })], { jid := some ⟨"bot@x", none⟩ }⟩
      (.elem "message" [("type", "groupchat"), ("from", "room@x/Alice")]
        [.elem "body" [] [.text "hi"]])).events.any
        (Event.isSessionStartedJ ⟨"alice@x", none⟩) = true)
    ∧ ((classify ⟨[], [("alice@x", { jid := some ⟨"alice@x", none⟩, name := some (.text "Alice") })], { jid := some ⟨"bot@x", none⟩ }⟩
      (.elem "message" [("type", "groupchat"), ("from", "room@x/Eve")]
        [.elem "body" [] [.text "hi"]])).events.any Event.isWarn = true) :=
  ⟨((c2_thm ⟨[], [("alice@x", { jid := some ⟨"alice@x", none⟩, name := some (.text "Alice") })], { jid := some ⟨"bot@x", none⟩ }⟩
      (.elem "message" [("type", "groupchat"), ("from", "room@x/Alice")]
        [.elem "body" [] [.text "hi"]]) "room@x/Alice" ⟨"bot@x", none⟩
      rfl (by decide) rfl rfl rfl rfl rfl).2
      { jid := some ⟨"alice@x", none⟩, name := some (.text "Alice") }
      ⟨"alice@x", none⟩ rfl rfl (by decide)).1,
   ((c2_thm ⟨[], [("alice@x", { jid := some ⟨"alice@x", none⟩, name := some (.text "Alice") })], { jid := some ⟨"bot@x", none⟩ }⟩
      (.elem "message" [("type", "groupchat"), ("from", "room@x/Eve")]
        [.elem "body" [] [.text "hi"]]) "room@x/Eve" ⟨"bot@x", none⟩
      rfl (by decide) rfl rfl rfl rfl rfl).1 rfl).2.1⟩

/-- Claim C3 (amended): on a private-chat reply event, both store writes
complete before the send pipeline runs, and the pipeline is invoked with the
reply text and the sender's address — but `send` re-parses the target and
strips it to the bare address, so the outgoing reply unit is addressed to
the sender's BARE address, not the resource-qualified one. -/
theorem c3_thm (s : BotState) (jm : JID) (text id1 : String) (tok : Nat)
    (hns : noSlash jm.bareStr = true) :
    (onSessionSend s "chat" jm text id1 tok).2
      = [.storeWrite .session, .storeWrite .user,
         .sent (chatStanza id1 jm.bareStr text), .sendEmitted]
    ∧ (chatStanza id1 jm.bareStr text).attr "to" = some jm.bareStr
    ∧ (chatStanza id1 jm.bareStr text).getChildText "body" = some text
    ∧ (onSessionSend s "chat" jm text id1 tok).1.resolvers.get id1
        = some (.pending tok) := by
  have hbs : (parseJID jm.toStr).bare.toStr = jm.bareStr := parse_toStr_bare jm hns
  unfold onSessionSend send
  rw [if_pos rfl]
  dsimp only
  rw [hbs]
  refine ⟨rfl, rfl, ?_, ObjMap.get_set_self _ _ _⟩
  simp [chatStanza, XNode.getChildText, XNode.getChild, XNode.getChildren,
    XNode.children, XNode.isElemNamed, XNode.getText, strJoin]

/-- Claim C3 counterexample: a reply to `alice@x/phone` goes out addressed
to `alice@x` — the outgoing unit is never addressed to the
resource-qualified address. -/
theorem c3_cex :
    ((onSessionSend ⟨[], [], {}⟩ "chat" ⟨"alice@x", some "phone"⟩
      "hi" "id1" 0).2.any (fun e => Event.isSentTo e "alice@x/phone")) = false
    ∧ ((onSessionSend ⟨[], [], {}⟩ "chat" ⟨"alice@x", some "phone"⟩
      "hi" "id1" 0).2.any (fun e => Event.isSentTo e "alice@x")) = true :=
  ⟨rfl, rfl⟩

/-- Claim C3 witness: the amended theorem applied to a reply for
`alice@x/phone`. -/
theorem c3_wit :
    (onSessionSend ⟨[], [], {}⟩ "chat" ⟨"alice@x", some "phone"⟩
        "hi" "id1" 0).2
      = [.storeWrite .session, .storeWrite .user,
         .sent (chatStanza "id1" "alice@x" "hi"), .sendEmitted]
    ∧ (chatStanza "id1" "alice@x" "hi").attr "to" = some "alice@x" :=
  ⟨(c3_thm ⟨[], [], {}⟩ ⟨"alice@x", some "phone"⟩ "hi" "id1" 0 (by decide)).1,
   (c3_thm ⟨[], [], {}⟩ ⟨"alice@x", some "phone"⟩ "hi" "id1" 0 (by decide)).2.1⟩

/-- Claim C9: an inbound private-chat message with a non-empty body, no
pending correlation entry for its id and a sender other than the bot itself
starts the session load/dispatch but the handler returns a falsy flag, so
the chain reports the unit unhandled, the presence and invite handlers also
inspect the unit, and the synchronous state is unchanged. -/
theorem c9_thm (s : BotState) (st : XNode) (f : String) (pj : JID)
    (hmsg : st.isElemNamed "message" = true)
    (hbody : (st.getChildText "body").getD "" ≠ "")
    (htype : st.attr "type" = some "chat")
    (hq : isQueryStanza st = false)
    (hres : resolverFor s st = none)
    (hfrom : st.attr "from" = some f)
    (hpj : s.profile.jid = some pj)
    (hself : pj.bareStr ≠ (parseJID f).bareStr) :
    (classify s st).handled = false
    ∧ (classify s st).crashed = false
    ∧ (classify s st).events.any (Event.isSessionStartedJ (parseJID f)) = true
    ∧ (classify s st).tried = CANON
    ∧ (classify s st).state = s := by
  have hiq : st.isElemNamed "iq" = false := isElemNamed_ne st "message" "iq" hmsg (by decide)
  have hpres : st.isElemNamed "presence" = false :=
    isElemNamed_ne st "message" "presence" hmsg (by decide)
  have hv : isVCardStanza st = false := by simp [isVCardStanza, hiq]
  have hp : isProfileStanza st = false := by simp [isProfileStanza, hiq]
  have hb : isMsgBasic st = true := by simp [isMsgBasic, hmsg, hbody, htype]
  have hcl := classify_unconsumed s st hv hp hq
  have hmsg2 : maybeMessage s st = .pass s [.sessionStarted (parseJID f)] := by
    rw [maybeMessage, if_pos hb]
    unfold messageCore
    rw [hres, hfrom, if_pos htype]
    unfold msgContinue
    rw [hpj]
    dsimp only
    rw [if_neg (show ¬(pj.bare.toStr = (newJID (some f)).bare.toStr) from hself)]
    rfl
  have hout : classify s st =
      ⟨s, [.sessionStarted (parseJID f)] ++ inviteEvents s st, CANON, false, false⟩ := by
    rw [hcl, hmsg2]
    dsimp only
    rw [presenceMergedState_not s st hpres]
  rw [hout]
  refine ⟨rfl, rfl, ?_, rfl, rfl⟩
  simp [Event.isSessionStartedJ]

/-- Claim C9 witness: a private chat message from `carl@x/web` is dispatched
yet reported unhandled with all six handlers evaluated. -/
theorem c9_wit :
    (classify ⟨[], [], { jid := some ⟨"bot@x", none⟩ }⟩
      (.elem "message" [("type", "chat"), ("from", "carl@x/web")]
        [.elem "body" [] [.text "yo"]])).handled = false
    ∧ (classify ⟨[], [], { jid := some ⟨"bot@x", none⟩ }⟩
      (.elem "message" [("type", "chat"), ("from", "carl@x/web")]
        [.elem "body" [] [.text "yo"]])).crashed = false
    ∧ (classify ⟨[], [], { jid := some ⟨"bot@x", none⟩ }⟩
      (.elem "message" [("type", "chat"), ("from", "carl@x/web")]
        [.elem "body" [] [.text "yo"]])).events.any
        (Event.isSessionStartedJ (parseJID "carl@x/web")) = true
    ∧ (classify ⟨[], [], { jid := some ⟨"bot@x", none⟩ }⟩
      (.elem "message" [("type", "chat"), ("from", "carl@x/web")]
        [.elem "body" [] [.text "yo"]])).tried = CANON
    ∧ (classify ⟨[], [], { jid := some ⟨"bot@x", none⟩ }⟩
      (.elem "message" [("type", "chat"), ("from", "carl@x/web")]
        [.elem "body" [] [.text "yo"]])).state
        = ⟨[], [], { jid := some ⟨"bot@x", none⟩ }⟩ :=
  c9_thm ⟨[], [], { jid := some ⟨"bot@x", none⟩ }⟩
    (.elem "message" [("type", "chat"), ("from", "carl@x/web")]
      [.elem "body" [] [.text "yo"]]) "carl@x/web" ⟨"bot@x", none⟩
    rfl (by decide) rfl rfl rfl rfl rfl (by decide)

/-- Claim C8: a presence-only update sets exactly the presence field of the
contact under the sender's bare address, leaving name, mention-name and
timezone (and every other directory key) unchanged; conversely a
profile-reply merge for an address never touches an already-set presence
field. -/
theorem c8_thm (s1 s2 : BotState) (stP stQ : XNode) (f g : String)
    (hP1 : stP.isElemNamed "presence" = true)
    (hP2 : isQueryStanza stP = false)
    (hP3 : stP.attr "from" = some f)
    (hQ1 : stQ.isElemNamed "iq" = true)
    (hQ2 : strStartsWith ((stQ.attr "id").getD "") "profile:" = true)
    (hQ3 : stQ.getChild "vCard" = none)
    (hQ4 : stQ.attr "from" = some g) :
    (((classify s1 stP).state.directory.get (parseJID f).bareStr).map Buddy.name
        = some (((s1.directory.get (parseJID f).bareStr).getD {}).name)
      ∧ ((classify s1 stP).state.directory.get (parseJID f).bareStr).map Buddy.mention_name
        = some (((s1.directory.get (parseJID f).bareStr).getD {}).mention_name)
      ∧ ((classify s1 stP).state.directory.get (parseJID f).bareStr).map Buddy.timezone
        = some (((s1.directory.get (parseJID f).bareStr).getD {}).timezone)
      ∧ ((classify s1 stP).state.directory.get (parseJID f).bareStr).map Buddy.presence
        = some (some (presenceVal stP))
      ∧ ∀ k, k ≠ (parseJID f).bareStr →
          (classify s1 stP).state.directory.get k = s1.directory.get k)
    ∧ ((classify s2 stQ).state.directory.get (parseJID g).bareStr).map Buddy.presence
        = some (((s2.directory.get (parseJID g).bareStr).getD {}).presence) := by
  constructor
  · have hiq : stP.isElemNamed "iq" = false :=
      isElemNamed_ne stP "presence" "iq" hP1 (by decide)
    have hmsgn : stP.isElemNamed "message" = false :=
      isElemNamed_ne stP "presence" "message" hP1 (by decide)
    have hv : isVCardStanza stP = false := by simp [isVCardStanza, hiq]
    have hp : isProfileStanza stP = false := by simp [isProfileStanza, hiq]
    have hb : isMsgBasic stP = false := by simp [isMsgBasic, hmsgn]
    have hkey : (newJID (stP.attr "from")).bare.toStr = (parseJID f).bareStr := by
      rw [hP3]
      rfl
    have hcl := classify_unconsumed s1 stP hv hp hP2
    rw [maybeMessage_pass s1 stP hb] at hcl
    rw [hcl]
    dsimp only
    rw [presenceMergedState, if_pos hP1]
    dsimp only
    rw [hkey]
    refine ⟨?_, ?_, ?_, ?_, ?_⟩
    · rw [ObjMap.get_set_self]
      rfl
    · rw [ObjMap.get_set_self]
      rfl
    · rw [ObjMap.get_set_self]
      rfl
    · rw [ObjMap.get_set_self]
      rfl
    · intro k hk
      exact ObjMap.get_set_ne _ _ _ _ hk
  · have hvQ : isVCardStanza stQ = false := by simp [isVCardStanza, hQ3]
    have hpQ : isProfileStanza stQ = true := by simp [isProfileStanza, hQ1, hQ2]
    obtain ⟨i, hI, hpre, hcl2⟩ := classify_profile s2 stQ hvQ hpQ
    have hkey2 : profileKey stQ = (parseJID g).bareStr := by
      rw [profileKey, hQ4]
      rfl
    rw [hcl2]
    dsimp only
    unfold profileStopState
    dsimp only
    rw [hkey2, ObjMap.get_set_self,
      show Option.map Buddy.presence (some (profileRecord s2 stQ).1)
        = some ((profileRecord s2 stQ).1.presence) from rfl,
      show (profileRecord s2 stQ).1.presence
        = ((s2.directory.get (profileKey stQ)).getD {}).presence from
        profileParse_presence _ _, hkey2]

/-- Claim C8 witness: a presence update for `alice@x` keeps her name and
sets only presence, and a later profile merge for `alice@x` keeps an
already-set presence value. -/
theorem c8_wit :
    ((classify ⟨[], [("alice@x", { jid := some ⟨"alice@x", none⟩, name := some (.text "Alice") })], {}⟩
      (.elem "presence" [("from", "alice@x/phone")] [.elem "show" [] [.text "dnd"]])).state.directory.get
        "alice@x").map Buddy.name = some (some (.text "Alice"))
    ∧ ((classify ⟨[], [("alice@x", { jid := some ⟨"alice@x", none⟩, name := some (.text "Alice") })], {}⟩
      (.elem "presence" [("from", "alice@x/phone")] [.elem "show" [] [.text "dnd"]])).state.directory.get
        "alice@x").map Buddy.presence = some (some "dnd")
    ∧ ((classify ⟨[], [("alice@x", { presence := some "xa" })], {}⟩
      (.elem "iq" [("id", "profile:2"), ("from", "alice@x"), ("type", "result")]
        [.elem "query" []
          [.elem "name" [] [.text "Alice"],
           .elem "mention_name" [] [.text "alice"],
           .elem "timezone" [("utc_offset", "-7")] [.text "America"]]])).state.directory.get
        "alice@x").map Buddy.presence = some (some "xa") :=
  ⟨(c8_thm ⟨[], [("alice@x", { jid := some ⟨"alice@x", none⟩, name := some (.text "Alice") })], {}⟩
      ⟨[], [("alice@x", { presence := some "xa" })], {}⟩
      (.elem "presence" [("from", "alice@x/phone")] [.elem "show" [] [.text "dnd"]])
      (.elem "iq" [("id", "profile:2"), ("from", "alice@x"), ("type", "result")]
        [.elem "query" []
          [.elem "name" [] [.text "Alice"],
           .elem "mention_name" [] [.text "alice"],
           .elem "timezone" [("utc_offset", "-7")] [.text "America"]]])
      "alice@x/phone" "alice@x" rfl rfl rfl rfl rfl rfl rfl).1.1,
   (c8_thm ⟨[], [("alice@x", { jid := some ⟨"alice@x", none⟩, name := some (.text "Alice") })], {}⟩
      ⟨[], [("alice@x", { presence := some "xa" })], {}⟩
      (.elem "presence" [("from", "alice@x/phone")] [.elem "show" [] [.text "dnd"]])
      (.elem "iq" [("id", "profile:2"), ("from", "alice@x"), ("type", "result")]
        [.elem "query" []
          [.elem "name" [] [.text "Alice"],
           .elem "mention_name" [] [.text "alice"],
           .elem "timezone" [("utc_offset", "-7")] [.text "America"]]])
      "alice@x/phone" "alice@x" rfl rfl rfl rfl rfl rfl rfl).1.2.2.2.1,
   (c8_thm ⟨[], [("alice@x", { jid := some ⟨"alice@x", none⟩, name := some (.text "Alice") })], {}⟩
      ⟨[], [("alice@x", { presence := some "xa" })], {}⟩
      (.elem "presence" [("from", "alice@x/phone")] [.elem "show" [] [.text "dnd"]])
      (.elem "iq" [("id", "profile:2"), ("from", "alice@x"), ("type", "result")]
        [.elem "query" []
          [.elem "name" [] [.text "Alice"],
           .elem "mention_name" [] [.text "alice"],
           .elem "timezone" [("utc_offset", "-7")] [.text "America"]]])
      "alice@x/phone" "alice@x" rfl rfl rfl rfl rfl rfl rfl).2⟩

/-- Claim C10: any unit with a `query` child that reaches the roster
handler is consumed by it regardless of its name or subtype; for each
`item` child (with pairwise distinct keys) one directory entry is written
under the bare address of its `jid` attribute, carrying exactly the item's
`name` and `mention_name` attributes (absent attributes clearing the
fields), every other key is untouched, and the resolver registry is
untouched. -/
theorem c10_thm (s : BotState) (st : XNode) (q : XNode)
    (hv : isVCardStanza st = false)
    (hp : isProfileStanza st = false)
    (hq : st.getChild "query" = some q)
    (hjids : ∀ el ∈ q.getChildren "item", (el.attr "jid").isSome = true)
    (hnd : ((q.getChildren "item").map itemKey).Nodup) :
    (classify s st).handled = true
    ∧ (classify s st).crashed = false
    ∧ (classify s st).state.resolvers = s.resolvers
    ∧ (∀ el ∈ q.getChildren "item",
        (classify s st).state.directory.get (itemKey el)
          = some (itemRecord (s.directory.get (itemKey el)) el))
    ∧ (∀ k, (∀ el ∈ q.getChildren "item", itemKey el ≠ k) →
        (classify s st).state.directory.get k = s.directory.get k) := by
  rw [classify_query s st q hv hp hq]
  dsimp only
  refine ⟨rfl, rfl, rfl, ?_, ?_⟩
  · intro el hel
    exact foldl_itemMerge_get (q.getChildren "item") s.directory hnd el hel
  · intro k hk
    exact foldl_itemMerge_frame (q.getChildren "item") s.directory k hk

/-- Claim C10 witness: a roster reply with two items writes both contacts
(one with no name attribute, clearing nothing but the absent fields) and
leaves an unrelated key alone. -/
theorem c10_wit :
    (classify ⟨[], [], {}⟩ (.elem "iq" [("type", "result")]
      [.elem "query" [("xmlns", "jabber:iq:roster")]
        [.elem "item" [("jid", "alice@x"), ("name", "Alice"), ("mention_name", "alice")] [],
         .elem "item" [("jid", "bob@x")] []]])).handled = true
    ∧ (classify ⟨[], [], {}⟩ (.elem "iq" [("type", "result")]
      [.elem "query" [("xmlns", "jabber:iq:roster")]
        [.elem "item" [("jid", "alice@x"), ("name", "Alice"), ("mention_name", "alice")] [],
         .elem "item" [("jid", "bob@x")] []]])).state.directory.get "alice@x"
      = some { jid := some ⟨"alice@x", none⟩, name := some (.text "Alice"),
               mention_name := some (.text "alice") }
    ∧ (classify ⟨[], [], {}⟩ (.elem "iq" [("type", "result")]
      [.elem "query" [("xmlns", "jabber:iq:roster")]
        [.elem "item" [("jid", "alice@x"), ("name", "Alice"), ("mention_name", "alice")] [],
         .elem "item" [("jid", "bob@x")] []]])).state.directory.get "carol@x" = none :=
  ⟨(c10_thm ⟨[], [], {}⟩ (.elem "iq" [("type", "result")]
      [.elem "query" [("xmlns", "jabber:iq:roster")]
        [.elem "item" [("jid", "alice@x"), ("name", "Alice"), ("mention_name", "alice")] [],
         .elem "item" [("jid", "bob@x")] []]])
      (.elem "query" [("xmlns", "jabber:iq:roster")]
        [.elem "item" [("jid", "alice@x"), ("name", "Alice"), ("mention_name", "alice")] [],
         .elem "item" [("jid", "bob@x")] []])
      rfl rfl rfl (by decide) (by decide)).1,
   (c10_thm ⟨[], [], {}⟩ (.elem "iq" [("type", "result")]
      [.elem "query" [("xmlns", "jabber:iq:roster")]
        [.elem "item" [("jid", "alice@x"), ("name", "Alice"), ("mention_name", "alice")] [],
         .elem "item" [("jid", "bob@x")] []]])
      (.elem "query" [("xmlns", "jabber:iq:roster")]
        [.elem "item" [("jid", "alice@x"), ("name", "Alice"), ("mention_name", "alice")] [],
         .elem "item" [("jid", "bob@x")] []])
      rfl rfl rfl (by decide) (by decide)).2.2.2.1
      (.elem "item" [("jid", "alice@x"), ("name", "Alice"), ("mention_name", "alice")] [])
      (List.mem_cons_self _ _),
   (c10_thm ⟨[], [], {}⟩ (.elem "iq" [("type", "result")]
      [.elem "query" [("xmlns", "jabber:iq:roster")]
        [.elem "item" [("jid", "alice@x"), ("name", "Alice"), ("mention_name", "alice")] [],
         .elem "item" [("jid", "bob@x")] []]])
      (.elem "query" [("xmlns", "jabber:iq:roster")]
        [.elem "item" [("jid", "alice@x"), ("name", "Alice"), ("mention_name", "alice")] [],
         .elem "item" [("jid", "bob@x")] []])
      rfl rfl rfl (by decide) (by decide)).2.2.2.2 "carol@x" (by decide)⟩

end Hipchat
